import Mathlib

/-!
Shallow embedding of the `ipc-subnet-actor` repository (Rust) used to check
the natural-language specification against the code.

Sources embedded:
  - `src/src/state.rs`  : the `State` object and its operations
    (`new`, `add_stake`, `rm_stake`, `send`, `has_majority_vote`,
     `mutate_state`, `verify_checkpoint`, `resolve_secp_bls`,
     `prev_checkpoint_cid`, `get_stake`, `set_stake`, `get_checkpoint`).
  - `src/src/lib.rs`    : the `Actor` dispatch (`invoke_method`) and `join`.
  - `src/src/types.rs`  : `Validator`, `Votes`, `ConsensusType`, `Status`,
    `ConstructParams`, `LEAVING_COEFF`, `TESTING_ID`.
  - `src/src/ext.rs`    : SCA method numbers.

Modelling conventions:
  - `TokenAmount` is a `BigInt` in the source and is modelled as `Int`
    (it can go negative: `rm_stake` subtracts without any check).
  - `Address` is modelled by its ID form as `Nat`; `Cid` is modelled as an
    opaque `Nat` (CIDs are only created, stored and compared for equality).
  - The stake HAMT (`HAMT[address]TokenAmount`, missing key reads as zero)
    is modelled extensionally as a total map `Address -> Int`; the
    checkpoints HAMT as `Int -> Option Checkpoint`.
  - Host-environment values (message receiver/caller, current balance,
    address resolution, the account-actor pubkey response, signature
    verification) are passed in explicitly as parameters / an `Env` record.
-/

/-- Addresses are identified by their resolved ID form (`fvm_shared::address::Address`). -/
abbrev Address := Nat

/-- Content identifiers, opaque; only equality and a default value are used. -/
abbrev Cid := Nat

/-- `Cid::default()`, the empty CID. -/
def Cid.default : Cid := 0

/-- Raw CBOR payload bytes (`fvm_ipld_encoding::RawBytes`). -/
abbrev RawBytes := List Nat

/-- `SubnetID`: ordered path of addresses rooted at the parent chain. -/
abbrev SubnetID := List Address

/-- `SubnetID::new(parent, child)` appends the child address to the parent path. -/
def SubnetID.new (parent : SubnetID) (child : Address) : SubnetID := parent ++ [child]

/-- `ConsensusType` from `src/src/types.rs` (u64 repr, Delegated = 0). -/
inductive ConsensusType where
  | Delegated
  | PoW
  | Tendermint
  | Mir
  | FilecoinEC
  | Dummy
deriving DecidableEq, Repr

/-- `Status` from `src/src/types.rs` (i32 repr, Instantiated = 0). -/
inductive Status where
  | Instantiated
  | Active
  | Inactive
  | Terminating
  | Killed
deriving DecidableEq, Repr

/-- `Validator` from `src/src/types.rs`. -/
structure Validator where
  subnet : SubnetID
  addr : Address
  net_addr : String
deriving DecidableEq, Repr

/-- `Votes` from `src/src/types.rs`: list of validator addresses having voted. -/
structure Votes where
  validators : List Address
deriving DecidableEq, Repr

/-- `LEAVING_COEFF` from `src/src/types.rs` (currently 1). -/
def LEAVING_COEFF : Int := 1

/-- `TESTING_ID` from `src/src/types.rs`. -/
def TESTING_ID : Address := 339

/-- `MIN_COLLATERAL_AMOUNT`: 10^18 atto. Defined in the external gateway
crate; the spec fixes it as `MIN_COLLATERAL = 10^18` and `src/src/ext.rs`
carries the same constant as `MIN_STAKE = 10_u64.pow(18)`. -/
def MIN_COLLATERAL_AMOUNT : Int := 10 ^ 18

/-- `DEFAULT_CHECKPOINT_PERIOD`: defined in the external SCA crate; the spec
fixes it as `DEFAULT_CHECK_PERIOD = 10` epochs (`src/src/ext.rs` has the
matching `MIN_CHECK_PERIOD = 10`). -/
def DEFAULT_CHECKPOINT_PERIOD : Int := 10

/-- `PUBKEY_ADDRESS_METHOD` of the account actor (`ext::account`). -/
def PUBKEY_ADDRESS_METHOD : Nat := 2

/-- `Register` method number of the SCA / IPC gateway (`src/src/ext.rs`). -/
def SCA_METHOD_REGISTER : Nat := 2

/-- `AddStake` method number of the SCA / IPC gateway (`src/src/ext.rs`). -/
def SCA_METHOD_ADD_STAKE : Nat := 3

/-- FVM user exit codes (`fvm_shared::error::ExitCode`). -/
abbrev ExitCode := Nat

def USR_ILLEGAL_ARGUMENT : ExitCode := 16
def USR_FORBIDDEN : ExitCode := 18
def USR_ILLEGAL_STATE : ExitCode := 20
def USR_UNHANDLED_MESSAGE : ExitCode := 22

/-- `Checkpoint` from the external SCA crate, used through its interface
(`epoch()`, `source()`, `prev_check()`, `signature()`, `cid()`); the `cid`
field stands for the deterministic content hash of the unsigned portion. -/
structure Checkpoint where
  source : SubnetID
  epoch : Int
  prev_check : Cid
  signature : RawBytes
  cid : Cid
deriving DecidableEq, Repr

/-- `ExpectedSend` from `src/src/utils.rs` (outbound sends recorded in testing mode). -/
structure ExpectedSend where
  «to» : Address
  method : Nat
  params : RawBytes
  value : Int
deriving DecidableEq, Repr

/-- `CrossActorPayload` from `src/src/utils.rs` (descriptor of an outbound send). -/
structure CrossActorPayload where
  «to» : Address
  method : Nat
  params : RawBytes
  value : Int
deriving DecidableEq, Repr

/-- `ConstructParams` from `src/src/types.rs`. The `ipc_gateway_addr` field
belongs to the newer variant of the params used by `src/src/lib.rs`
(see its tests); the older `types.rs` variant omits it. -/
structure ConstructParams where
  parent : SubnetID
  name : String
  ipc_gateway_addr : Address
  consensus : ConsensusType
  min_validator_stake : Int
  min_validators : Nat
  finality_threshold : Int
  check_period : Int
  genesis : List Nat

/-- `JoinParams`: `(validator_net_addr : String)`. -/
structure JoinParams where
  validator_net_addr : String

/-- The `State` object from `src/src/state.rs`. The `ipc_gateway_addr`
field is the SCA address used by `src/src/lib.rs` (`st.ipc_gateway_addr`);
the stake and checkpoint HAMTs are modelled extensionally. -/
structure State where
  name : String
  parent_id : SubnetID
  ipc_gateway_addr : Address
  consensus : ConsensusType
  min_validator_stake : Int
  total_stake : Int
  stake : Address → Int
  status : Status
  genesis : List Nat
  finality_threshold : Int
  check_period : Int
  checkpoints : Int → Option Checkpoint
  window_checks : Cid → Option Votes
  validator_set : List Validator
  min_validators : Nat
  testing : Bool
  expected_msg : List ExpectedSend

/-- `get_stake` from `src/src/state.rs`: missing key reads as zero
(the map is total with default 0 in this model). -/
def get_stake (stakes : Address → Int) (key : Address) : Int := stakes key

/-- `set_stake` from `src/src/state.rs`: insert-or-replace in the stake map. -/
def set_stake (stakes : Address → Int) (addr : Address) (amount : Int) : Address → Int :=
  fun a => if a = addr then amount else stakes a

/-- `get_checkpoint` from `src/src/state.rs`: lookup by epoch. -/
def get_checkpoint (checkpoints : Int → Option Checkpoint) (epoch : Int) : Option Checkpoint :=
  checkpoints epoch

/-- `State::new` from `src/src/state.rs`: clamps `min_validator_stake` up to
`MIN_COLLATERAL_AMOUNT` and `check_period` up to `DEFAULT_CHECKPOINT_PERIOD`,
starts `Instantiated` with empty maps, empty validator set and zero stake. -/
def State.new (params : ConstructParams) (is_test : Bool) : State :=
  { name := params.name
    parent_id := params.parent
    ipc_gateway_addr := params.ipc_gateway_addr
    consensus := params.consensus
    total_stake := 0
    min_validator_stake :=
      if params.min_validator_stake < MIN_COLLATERAL_AMOUNT then MIN_COLLATERAL_AMOUNT
      else params.min_validator_stake
    min_validators := params.min_validators
    finality_threshold := params.finality_threshold
    check_period :=
      if params.check_period < DEFAULT_CHECKPOINT_PERIOD then DEFAULT_CHECKPOINT_PERIOD
      else params.check_period
    genesis := params.genesis
    status := Status.Instantiated
    checkpoints := fun _ => none
    stake := fun _ => 0
    window_checks := fun _ => none
    validator_set := []
    testing := is_test
    expected_msg := [] }

/-- `State::add_stake` from `src/src/state.rs`. `receiver` models
`sdk::message::receiver()`. The appended validator entry carries an empty
`net_addr` (the source hard-codes `String::new()` behind a FIXME); no check
is made that `addr` is already present in `validator_set`. -/
def State.add_stake (st : State) (receiver : Address) (addr : Address) (amount : Int) : State :=
  let stake := get_stake st.stake addr + amount
  let st1 : State :=
    { st with stake := set_stake st.stake addr stake, total_stake := st.total_stake + amount }
  if st1.min_validator_stake ≤ stake ∧
      (st1.consensus ≠ ConsensusType.Delegated ∨ st1.validator_set.length < 1) then
    { st1 with
      validator_set := st1.validator_set ++
        [{ subnet := SubnetID.new st1.parent_id receiver, addr := addr, net_addr := "" }] }
  else st1

/-- `State::rm_stake` from `src/src/state.rs`: writes back
`stake[addr] / LEAVING_COEFF - amount` (BigInt arithmetic, no underflow
check), decreases `total_stake` and removes `addr` from the validator set. -/
def State.rm_stake (st : State) (addr : Address) (amount : Int) : State :=
  let stake := get_stake st.stake addr / LEAVING_COEFF - amount
  { st with
    stake := set_stake st.stake addr stake
    total_stake := st.total_stake - amount
    validator_set := st.validator_set.filter (fun x => x.addr ≠ addr) }

/-- Voting threshold `2/3` (`Ratio::new(2, 3)` in the source). -/
def VOTING_THRESHOLD : ℚ := 2 / 3

/-- Sum of stakes over a list of validator addresses (the loop in
`has_majority_vote`). -/
def sum_stakes (stakes : Address → Int) (vs : List Address) : Int :=
  List.foldl (fun acc v => acc + get_stake stakes v) 0 vs

/-- `State::has_majority_vote` from `src/src/state.rs`: exact rational
comparison `sum / total_stake >= 2/3` using arbitrary-precision rationals. -/
def State.has_majority_vote (st : State) (votes : Votes) : Bool :=
  decide (((sum_stakes st.stake votes.validators : ℚ) / (st.total_stake : ℚ)) ≥ VOTING_THRESHOLD)

/-- `State::mutate_state` from `src/src/state.rs`. `balance` models
`sdk::sself::current_balance()`; the Terminating row also demands a zero
balance unless the testing flag is set. -/
def State.mutate_state (st : State) (balance : Int) : State :=
  match st.status with
  | Status.Instantiated =>
      if MIN_COLLATERAL_AMOUNT ≤ st.total_stake then { st with status := Status.Active } else st
  | Status.Active =>
      if st.total_stake < MIN_COLLATERAL_AMOUNT then { st with status := Status.Inactive } else st
  | Status.Inactive =>
      if MIN_COLLATERAL_AMOUNT ≤ st.total_stake then { st with status := Status.Active } else st
  | Status.Terminating =>
      if st.total_stake = 0 ∧ (balance = 0 ∨ st.testing = true) then
        { st with status := Status.Killed }
      else st
  | Status.Killed => st

/-- Host-environment inputs of `verify_checkpoint` and its helpers:
message receiver and caller, `sdk::actor::resolve_address`, the return data
of a real (non-testing) `sdk::send`, CBOR decoding of the account-actor
address response, and `sdk::crypto::verify_signature`. -/
structure Env where
  receiver : Address
  caller : Address
  resolveAddr : Address → Option Address
  sendReturn : Address → Nat → RawBytes → Int → RawBytes
  deserializeAddr : RawBytes → Option Address
  verifySig : RawBytes → Address → Cid → Bool

/-- Error causes of `verify_checkpoint` / `resolve_secp_bls`, one constructor
per distinct `anyhow` message in `src/src/state.rs`. -/
inductive VerifyError where
  | notActive
  | alreadySubmitted
  | badEpoch
  | badSource
  | badPrevCheck
  | resolveFailed
  | badAddressResponse
  | badSignature
  | notValidator
deriving DecidableEq, Repr

/-- `State::send` from `src/src/state.rs`: a real outbound send when not
testing (returning the call return data), otherwise the message is recorded
in `expected_msg` and default bytes are returned. -/
def State.sendMsg (st : State) (env : Env) (dst : Address) (method : Nat)
    (params : RawBytes) (value : Int) : State × RawBytes :=
  if st.testing = false then (st, env.sendReturn dst method params value)
  else ({ st with expected_msg := st.expected_msg ++ [⟨dst, method, params, value⟩] }, [])

/-- `State::resolve_secp_bls` from `src/src/state.rs`: resolve the address
to ID form, query the account actor for the public key, and in testing mode
return the fixed `TESTING_ID` without looking at the response. -/
def State.resolve_secp_bls (st : State) (env : Env) (addr : Address) :
    State × Except VerifyError Address :=
  match env.resolveAddr addr with
  | none => (st, Except.error VerifyError.resolveFailed)
  | some id =>
    let p := st.sendMsg env id PUBKEY_ADDRESS_METHOD [] 0
    if p.1.testing then (p.1, Except.ok TESTING_ID)
    else
      match env.deserializeAddr p.2 with
      | some pk => (p.1, Except.ok pk)
      | none => (p.1, Except.error VerifyError.badAddressResponse)

/-- The loop of `State::prev_checkpoint_cid` from `src/src/state.rs`,
written with explicit fuel: starting from `epoch - check_period`, step down
by `check_period` while the epoch is non-negative; return the first stored
checkpoint CID found, or the default CID once the epoch drops below zero.
`none` means the fuel ran out before the loop exited. -/
def prevCheckpointLoop (cps : Int → Option Checkpoint) (period : Int) :
    Nat → Int → Option Cid
  | 0, _ => none
  | fuel + 1, e =>
    if 0 ≤ e then
      match get_checkpoint cps e with
      | some ch => some ch.cid
      | none => prevCheckpointLoop cps period fuel (e - period)
    else some Cid.default

/-- `State::prev_checkpoint_cid`, made total by running the loop with
`(e + 1).toNat + 1` units of fuel, which is enough for the loop to exit
whenever `check_period` is positive (each iteration decreases the epoch by
at least one); for a non-positive `check_period` the source loop would not
terminate, and the fallback default CID here is never relied upon. -/
def State.prev_checkpoint_cid (st : State) (epoch : Int) : Cid :=
  let e0 := epoch - st.check_period
  match prevCheckpointLoop st.checkpoints st.check_period ((e0 + 1).toNat + 1) e0 with
  | some c => c
  | none => Cid.default

/-- `State::verify_checkpoint` from `src/src/state.rs`: the guard chain over
status, per-epoch uniqueness, epoch window, source, previous checkpoint,
signature (skipped when testing) and validator membership. Returns the
(possibly testing-extended) state together with the verification result. -/
def State.verify_checkpoint (st : State) (env : Env) (ch : Checkpoint) :
    State × Except VerifyError Unit :=
  if st.status ≠ Status.Active then (st, Except.error VerifyError.notActive)
  else
    match get_checkpoint st.checkpoints ch.epoch with
    | some _ => (st, Except.error VerifyError.alreadySubmitted)
    | none =>
      if ch.epoch % st.check_period ≠ 0 then (st, Except.error VerifyError.badEpoch)
      else if ch.source ≠ SubnetID.new st.parent_id env.receiver then
        (st, Except.error VerifyError.badSource)
      else if st.prev_checkpoint_cid ch.epoch ≠ ch.prev_check then
        (st, Except.error VerifyError.badPrevCheck)
      else
        let caller := env.caller
        let r := st.resolve_secp_bls env caller
        match r.2 with
        | Except.error e => (r.1, Except.error e)
        | Except.ok pkey =>
          if r.1.testing = false ∧ env.verifySig ch.signature pkey ch.cid = false then
            (r.1, Except.error VerifyError.badSignature)
          else if (r.1.validator_set.any (fun x => x.addr = caller)) = false then
            (r.1, Except.error VerifyError.notValidator)
          else (r.1, Except.ok ())

/-- `Method` from `src/src/lib.rs`: only `Constructor = METHOD_CONSTRUCTOR`
(1) and `Join = 2` exist; `Leave`, `Kill` and `SubmitCheckpoint` are
commented out in the source. -/
inductive Method where
  | Constructor
  | Join
deriving DecidableEq, Repr

/-- `METHOD_CONSTRUCTOR` from the Filecoin calling convention. -/
def METHOD_CONSTRUCTOR : Nat := 1

/-- The derived `FromPrimitive::from_u64` on `Method`. -/
def Method.from_u64 (n : Nat) : Option Method :=
  if n = METHOD_CONSTRUCTOR then some Method.Constructor
  else if n = 2 then some Method.Join
  else none

/-- The dispatch of `Actor::invoke_method` from `src/src/lib.rs`, abstracted
over handler execution: it reports which handler the method number routes
to, or the `USR_UNHANDLED_MESSAGE` exit code for unknown numbers. -/
def Actor.invoke_method (method : Nat) : Except ExitCode Method :=
  match Method.from_u64 method with
  | some m => Except.ok m
  | none => Except.error USR_UNHANDLED_MESSAGE

/-- `Actor::join` from `src/src/lib.rs`. `receiver`/`caller`/`value` model
`rt.message()`, `balance` the actor balance read by `mutate_state`, and
`callerIsAccount` the caller actor type that the commented-out guard in the
source would have consulted (the implementation never reads it). The
in-repo `State::add_stake` takes no net address, so `params` is carried but
not forwarded. On success the updated state is returned together with the
optional outbound SCA message emitted after the transaction. -/
def Actor.join (receiver caller : Address) (_callerIsAccount : Bool) (value : Int)
    (_params : JoinParams) (st : State) (balance : Int) :
    Except ExitCode (State × Option CrossActorPayload) :=
  if value ≤ 0 then Except.error USR_ILLEGAL_ARGUMENT
  else
    let st1 := st.add_stake receiver caller value
    let cur_balance := st1.total_stake
    let msg : Option CrossActorPayload :=
      if st1.status = Status.Instantiated then
        if MIN_COLLATERAL_AMOUNT ≤ cur_balance then
          some ⟨st1.ipc_gateway_addr, SCA_METHOD_REGISTER, [], st1.total_stake⟩
        else none
      else some ⟨st1.ipc_gateway_addr, SCA_METHOD_ADD_STAKE, [], value⟩
    let st2 := st1.mutate_state balance
    Except.ok (st2, msg)

/-- Whether an `Actor::join` result is a success. -/
def joinIsOk (r : Except ExitCode (State × Option CrossActorPayload)) : Bool :=
  match r with
  | Except.ok _ => true
  | Except.error _ => false

deriving instance DecidableEq for Except

/-- Empty `JoinParams` used in concrete evaluations. -/
def emptyJoinParams : JoinParams := { validator_net_addr := "" }

/-- A neutral concrete state used as the base of the concrete evaluations:
parent `/root` path `[0]`, SCA at 64, PoW consensus, default thresholds,
fresh (`Instantiated`) with empty maps, not testing. -/
def baseState : State :=
  { name := ""
    parent_id := [0]
    ipc_gateway_addr := 64
    consensus := ConsensusType.PoW
    min_validator_stake := MIN_COLLATERAL_AMOUNT
    total_stake := 0
    stake := fun _ => 0
    status := Status.Instantiated
    genesis := []
    finality_threshold := 5
    check_period := 10
    checkpoints := fun _ => none
    window_checks := fun _ => none
    validator_set := []
    min_validators := 0
    testing := false
    expected_msg := [] }

/-- State in which address 7 already is a validator with stake 10 (threshold 10). -/
def stDup : State :=
  { baseState with
    min_validator_stake := 10
    stake := fun a => if a = 7 then 10 else 0
    total_stake := 10
    validator_set := [{ subnet := SubnetID.new [0] 1, addr := 7, net_addr := "" }] }

/-- State in which address 7 holds stake 5 out of a total of 100. -/
def stRm : State :=
  { baseState with
    stake := fun a => if a = 7 then 5 else 0
    total_stake := 100
    validator_set := [{ subnet := SubnetID.new [0] 1, addr := 7, net_addr := "" }] }

/-- Terminating state with zero total stake, not testing. -/
def stTermC : State :=
  { baseState with status := Status.Terminating, total_stake := 0, testing := false }

/-- Instantiated state whose total stake already equals the collateral threshold. -/
def stInstW : State :=
  { baseState with total_stake := MIN_COLLATERAL_AMOUNT }

/-- Quorum fixture: validator 1 holds stake 2 out of a total of 3. -/
def stQuorum : State :=
  { baseState with stake := fun a => if a = 1 then 2 else 0, total_stake := 3 }

/-- Active state (testing mode) whose validator set contains address 7. -/
def stTestActive : State :=
  { baseState with
    status := Status.Active
    testing := true
    validator_set := [{ subnet := SubnetID.new [0] 1, addr := 7, net_addr := "" }] }

/-- Active state (non-testing) whose validator set contains address 7. -/
def stActive : State :=
  { baseState with
    status := Status.Active
    validator_set := [{ subnet := SubnetID.new [0] 1, addr := 7, net_addr := "" }] }

/-- Environment whose signature oracle rejects every signature. -/
def envSkip : Env :=
  { receiver := 1
    caller := 7
    resolveAddr := fun a => some a
    sendReturn := fun _ _ _ _ => []
    deserializeAddr := fun _ => none
    verifySig := fun _ _ _ => false }

/-- Environment that resolves every address, returns a decodable public key
and accepts every signature. -/
def envOk : Env :=
  { receiver := 1
    caller := 7
    resolveAddr := fun a => some a
    sendReturn := fun _ _ _ _ => [9]
    deserializeAddr := fun _ => some 42
    verifySig := fun _ _ _ => true }

/-- Checkpoint for epoch 10 with the matching source `[0] ++ [1]`, default
previous CID and CID 99. -/
def chTen : Checkpoint :=
  { source := SubnetID.new [0] 1
    epoch := 10
    prev_check := Cid.default
    signature := []
    cid := 99 }

/-- Construction parameters with a zero `check_period` (to be clamped). -/
def paramsW : ConstructParams :=
  { parent := [0]
    name := ""
    ipc_gateway_addr := 64
    consensus := ConsensusType.PoW
    min_validator_stake := 0
    min_validators := 0
    finality_threshold := 5
    check_period := 0
    genesis := [] }

/-- C1 counterexample: method numbers 3, 4 and 5 are not routed to any
handler; they all fail with `USR_UNHANDLED_MESSAGE`, contradicting the
claim that 3 routes to leave, 4 to kill and 5 to submit_checkpoint. -/
theorem invoke_method_methods_3_4_5_unhandled :
    Actor.invoke_method 3 = Except.error USR_UNHANDLED_MESSAGE ∧
    Actor.invoke_method 4 = Except.error USR_UNHANDLED_MESSAGE ∧
    Actor.invoke_method 5 = Except.error USR_UNHANDLED_MESSAGE := by
  refine ⟨by decide, by decide, by decide⟩

/-- C1 (amended): `invoke_method` routes method number 1 to the constructor
and 2 to join, and every other method number — including 3, 4 and 5, whose
handlers are commented out in the source — fails with the
`USR_UNHANDLED_MESSAGE` exit code. -/
theorem invoke_method_routing (m : Nat) (h1 : m ≠ METHOD_CONSTRUCTOR) (h2 : m ≠ 2) :
    Actor.invoke_method METHOD_CONSTRUCTOR = Except.ok Method.Constructor ∧
    Actor.invoke_method 2 = Except.ok Method.Join ∧
    Actor.invoke_method m = Except.error USR_UNHANDLED_MESSAGE := by
  refine ⟨by decide, by decide, ?_⟩
  unfold Actor.invoke_method Method.from_u64
  rw [if_neg h1, if_neg h2]

/-- Witness for `invoke_method_routing` at method number 7. -/
theorem invoke_method_routing_witness :
    (7 : Nat) ≠ METHOD_CONSTRUCTOR ∧ (7 : Nat) ≠ 2 ∧
    Actor.invoke_method 7 = Except.error USR_UNHANDLED_MESSAGE :=
  ⟨by decide, by decide, (invoke_method_routing 7 (by decide) (by decide)).2.2⟩

/-- C2 counterexample: address 7 is already a validator of `stDup` (one
entry); adding stake 5 under PoW consensus appends a second entry for the
same address, so `add_stake` does create duplicates. -/
theorem add_stake_duplicate_validator :
    stDup.validator_set.countP (fun v => v.addr == 7) = 1 ∧
    ((stDup.add_stake 1 7 5).validator_set.countP (fun v => v.addr == 7)) = 2 := by
  refine ⟨by decide, by decide⟩

/-- C2 (amended): `add_stake(addr, amount)` increases `stake[addr]` and
`total_stake` by `amount`, and appends a validator entry for `addr` (with
empty net address) exactly when the updated stake reaches
`min_validator_stake` and the admission predicate holds (consensus is not
Delegated, or the validator set is empty); whether `addr` is already
present is NOT checked, so duplicates are possible. -/
theorem add_stake_characterization (st : State) (receiver addr : Address) (amount : Int) :
    get_stake (st.add_stake receiver addr amount).stake addr = get_stake st.stake addr + amount ∧
    (st.add_stake receiver addr amount).total_stake = st.total_stake + amount ∧
    (if st.min_validator_stake ≤ get_stake st.stake addr + amount ∧
        (st.consensus ≠ ConsensusType.Delegated ∨ st.validator_set = []) then
      (st.add_stake receiver addr amount).validator_set =
        st.validator_set ++
          [{ subnet := SubnetID.new st.parent_id receiver, addr := addr, net_addr := "" }]
    else (st.add_stake receiver addr amount).validator_set = st.validator_set) := by
  have hlen : (st.validator_set.length < 1) ↔ (st.validator_set = []) := by
    rw [Nat.lt_one_iff, List.length_eq_zero]
  refine ⟨?_, ?_, ?_⟩
  · unfold State.add_stake
    dsimp only
    split <;> simp [get_stake, set_stake]
  · unfold State.add_stake
    dsimp only
    split <;> rfl
  · unfold State.add_stake
    dsimp only
    simp only [hlen]
    by_cases hc : st.min_validator_stake ≤ get_stake st.stake addr + amount ∧
        (st.consensus ≠ ConsensusType.Delegated ∨ st.validator_set = [])
    · rw [if_pos hc, if_pos hc]
    · rw [if_neg hc, if_neg hc]

/-- C3 counterexample: in `stRm`, address 7 holds stake 5; removing 10
(`amount > stake / LEAVING_COEFF`) does NOT fail: the stake entry is
written back as -5, `total_stake` drops by 10, and the validator entry for
7 is removed — contradicting the claimed `ILLEGAL_STATE` failure with no
state change. -/
theorem rm_stake_negative_stake_no_failure :
    get_stake (stRm.rm_stake 7 10).stake 7 = -5 ∧
    (stRm.rm_stake 7 10).total_stake = 90 ∧
    (stRm.rm_stake 7 10).validator_set = [] := by
  refine ⟨by decide, by decide, by decide⟩

/-- C3 (amended): `rm_stake(addr, amount)` performs no underflow check and
never fails: for every address and amount it writes back
`stake[addr] / LEAVING_COEFF - amount` (which may be negative, the stake
being an arbitrary-precision integer), decreases `total_stake` by `amount`,
and removes `addr` from the validator set. -/
theorem rm_stake_characterization (st : State) (addr : Address) (amount : Int) :
    get_stake (st.rm_stake addr amount).stake addr =
      get_stake st.stake addr / LEAVING_COEFF - amount ∧
    (st.rm_stake addr amount).total_stake = st.total_stake - amount ∧
    (st.rm_stake addr amount).validator_set =
      st.validator_set.filter (fun x => x.addr ≠ addr) := by
  refine ⟨?_, rfl, rfl⟩
  simp [State.rm_stake, get_stake, set_stake]

/-- C6 counterexample: `stTermC` is Terminating with zero total stake but a
non-zero actor balance (5) and `testing = false`; `mutate_state` leaves it
Terminating, contradicting the claim that Terminating becomes Killed as
soon as `total_stake` is zero. -/
theorem mutate_state_terminating_balance_cex :
    (stTermC.mutate_state 5).status = Status.Terminating := by decide

/-- C6 (amended): the status transition relation of `mutate_state`:
Instantiated/Inactive become Active when `total_stake` reaches
`MIN_COLLATERAL_AMOUNT`; Active becomes Inactive when it drops below;
Terminating becomes Killed when `total_stake = 0` AND (the current actor
balance is zero OR the testing flag is set); Killed is terminal; in every
other case the status — and the whole state — is unchanged (only the
status field is ever modified). -/
theorem mutate_state_transition_table (st : State) (balance : Int) :
    ((st.mutate_state balance).total_stake = st.total_stake ∧
      (st.mutate_state balance).stake = st.stake ∧
      (st.mutate_state balance).validator_set = st.validator_set) ∧
    (st.status = Status.Instantiated → MIN_COLLATERAL_AMOUNT ≤ st.total_stake →
      (st.mutate_state balance).status = Status.Active) ∧
    (st.status = Status.Instantiated → st.total_stake < MIN_COLLATERAL_AMOUNT →
      (st.mutate_state balance).status = Status.Instantiated) ∧
    (st.status = Status.Active → st.total_stake < MIN_COLLATERAL_AMOUNT →
      (st.mutate_state balance).status = Status.Inactive) ∧
    (st.status = Status.Active → MIN_COLLATERAL_AMOUNT ≤ st.total_stake →
      (st.mutate_state balance).status = Status.Active) ∧
    (st.status = Status.Inactive → MIN_COLLATERAL_AMOUNT ≤ st.total_stake →
      (st.mutate_state balance).status = Status.Active) ∧
    (st.status = Status.Inactive → st.total_stake < MIN_COLLATERAL_AMOUNT →
      (st.mutate_state balance).status = Status.Inactive) ∧
    (st.status = Status.Terminating → st.total_stake = 0 → (balance = 0 ∨ st.testing = true) →
      (st.mutate_state balance).status = Status.Killed) ∧
    (st.status = Status.Terminating → ¬(st.total_stake = 0 ∧ (balance = 0 ∨ st.testing = true)) →
      (st.mutate_state balance).status = Status.Terminating) ∧
    (st.status = Status.Killed → (st.mutate_state balance).status = Status.Killed) := by
  constructor
  · unfold State.mutate_state
    cases hst : st.status <;> simp only [hst] <;>
      first
      | exact ⟨trivial, trivial, trivial⟩
      | exact ⟨rfl, rfl, rfl⟩
      | (split <;> exact ⟨rfl, rfl, rfl⟩)
  refine ⟨?_, ?_, ?_, ?_, ?_, ?_, ?_, ?_, ?_⟩
  · intro h1 h2
    unfold State.mutate_state
    simp only [h1]
    rw [if_pos h2]
  · intro h1 h2
    unfold State.mutate_state
    simp only [h1]
    rw [if_neg (not_le.mpr h2)]
    exact h1
  · intro h1 h2
    unfold State.mutate_state
    simp only [h1]
    rw [if_pos h2]
  · intro h1 h2
    unfold State.mutate_state
    simp only [h1]
    rw [if_neg (not_lt.mpr h2)]
    exact h1
  · intro h1 h2
    unfold State.mutate_state
    simp only [h1]
    rw [if_pos h2]
  · intro h1 h2
    unfold State.mutate_state
    simp only [h1]
    rw [if_neg (not_le.mpr h2)]
    exact h1
  · intro h1 h2 h3
    unfold State.mutate_state
    simp only [h1]
    rw [if_pos ⟨h2, h3⟩]
  · intro h1 h2
    unfold State.mutate_state
    simp only [h1]
    rw [if_neg h2]
    exact h1
  · intro h1
    unfold State.mutate_state
    simp only [h1]

/-- Witness for `mutate_state_transition_table`: an Instantiated state at
the collateral threshold becomes Active. -/
theorem mutate_state_transition_table_witness :
    stInstW.status = Status.Instantiated ∧
    MIN_COLLATERAL_AMOUNT ≤ stInstW.total_stake ∧
    (stInstW.mutate_state 0).status = Status.Active :=
  ⟨rfl, by decide, (mutate_state_transition_table stInstW 0).2.1 rfl (by decide)⟩

/-- C8 counterexample: a Join from a caller that is NOT an account-type
actor (`callerIsAccount = false`) with positive attached value succeeds —
the caller-type guard in the source is commented out, so no
`USR_FORBIDDEN` failure occurs. -/
theorem join_no_forbidden_for_nonaccount :
    joinIsOk (Actor.join 1 7 false 1 emptyJoinParams baseState 0) = true := by decide

/-- C8 (amended): `join` performs no caller-type check at all: its result
does not depend on the caller actor type; the only upfront guard is the
attached value, and a non-positive value fails with
`USR_ILLEGAL_ARGUMENT` (never `USR_FORBIDDEN`). -/
theorem join_caller_type_unchecked (receiver caller : Address) (a b : Bool) (value : Int)
    (p : JoinParams) (st : State) (balance : Int) :
    Actor.join receiver caller a value p st balance =
      Actor.join receiver caller b value p st balance ∧
    (value ≤ 0 →
      Actor.join receiver caller a value p st balance = Except.error USR_ILLEGAL_ARGUMENT) ∧
    (∀ e, Actor.join receiver caller a value p st balance = Except.error e →
      e = USR_ILLEGAL_ARGUMENT) := by
  refine ⟨rfl, ?_, ?_⟩
  · intro hv
    unfold Actor.join
    rw [if_pos hv]
  · intro e he
    unfold Actor.join at he
    by_cases hv : value ≤ 0
    · rw [if_pos hv] at he
      exact (Except.error.inj he).symm
    · rw [if_neg hv] at he
      exact Except.noConfusion he

/-- Witness for `join_caller_type_unchecked`: Join with zero value fails
with `USR_ILLEGAL_ARGUMENT`. -/
theorem join_caller_type_unchecked_witness :
    Actor.join 1 7 false 0 emptyJoinParams baseState 0 = Except.error USR_ILLEGAL_ARGUMENT :=
  (join_caller_type_unchecked 1 7 false true 0 emptyJoinParams baseState 0).2.1 (by decide)

/-- C4 (confirmed): a successful Join (positive attached value) returns the
post-transaction state and exactly the outbound SCA message the claim
describes: `Register` with the cumulative total stake as value when the
subnet was Instantiated and the updated total reaches the collateral
threshold, `AddStake` with the incremental value when the subnet was not
Instantiated, and no message when Instantiated and still below threshold. -/
theorem join_sca_send_policy (receiver caller : Address) (acct : Bool) (value : Int)
    (p : JoinParams) (st : State) (balance : Int) (hv : 0 < value) :
    Actor.join receiver caller acct value p st balance =
      Except.ok ((st.add_stake receiver caller value).mutate_state balance,
        if st.status = Status.Instantiated then
          if MIN_COLLATERAL_AMOUNT ≤ st.total_stake + value then
            some { «to» := st.ipc_gateway_addr, method := SCA_METHOD_REGISTER, params := [],
                   value := st.total_stake + value }
          else none
        else some { «to» := st.ipc_gateway_addr, method := SCA_METHOD_ADD_STAKE, params := [],
                    value := value }) := by
  have hs : (st.add_stake receiver caller value).status = st.status := by
    unfold State.add_stake
    dsimp only
    split <;> rfl
  have hg : (st.add_stake receiver caller value).ipc_gateway_addr = st.ipc_gateway_addr := by
    unfold State.add_stake
    dsimp only
    split <;> rfl
  have ht : (st.add_stake receiver caller value).total_stake = st.total_stake + value := by
    unfold State.add_stake
    dsimp only
    split <;> rfl
  unfold Actor.join
  rw [if_neg (not_le.mpr hv)]
  dsimp only
  rw [hs, hg, ht]

/-- Witness for `join_sca_send_policy`: the first Join bringing the fresh
subnet exactly to the collateral threshold triggers the Register branch. -/
theorem join_sca_send_policy_witness :
    (0 : Int) < 10 ^ 18 ∧
    Actor.join 1 7 true (10 ^ 18) emptyJoinParams baseState 0 =
      Except.ok ((baseState.add_stake 1 7 (10 ^ 18)).mutate_state 0,
        if baseState.status = Status.Instantiated then
          if MIN_COLLATERAL_AMOUNT ≤ baseState.total_stake + 10 ^ 18 then
            some { «to» := baseState.ipc_gateway_addr, method := SCA_METHOD_REGISTER, params := [],
                   value := baseState.total_stake + 10 ^ 18 }
          else none
        else some { «to» := baseState.ipc_gateway_addr, method := SCA_METHOD_ADD_STAKE, params := [],
                    value := 10 ^ 18 }) :=
  ⟨by decide, join_sca_send_policy 1 7 true (10 ^ 18) emptyJoinParams baseState 0 (by decide)⟩

/-- C5 (confirmed): for positive `total_stake`, `has_majority_vote` returns
true exactly when the exact rational `(sum of listed stakes) / total_stake`
is at least 2/3, equivalently when `3 * sum >= 2 * total_stake` over the
integers — the comparison is exact, with no fixed-point rounding. -/
theorem has_majority_vote_exact_ratio (st : State) (votes : Votes) (h : 0 < st.total_stake) :
    st.has_majority_vote votes = true ↔
      3 * sum_stakes st.stake votes.validators ≥ 2 * st.total_stake := by
  unfold State.has_majority_vote VOTING_THRESHOLD
  simp only [decide_eq_true_eq]
  have ht : (0 : ℚ) < (st.total_stake : ℚ) := by exact_mod_cast h
  rw [ge_iff_le, div_le_div_iff₀ (by norm_num) ht]
  constructor
  · intro hx
    have hx2 : 2 * st.total_stake ≤ sum_stakes st.stake votes.validators * 3 := by
      exact_mod_cast hx
    omega
  · intro hx
    have hx2 : 2 * st.total_stake ≤ sum_stakes st.stake votes.validators * 3 := by omega
    exact_mod_cast hx2

/-- Witness for `has_majority_vote_exact_ratio`: total stake 3, a single
voter holding stake 2 (exactly 2/3). -/
theorem has_majority_vote_exact_ratio_witness :
    (0 : Int) < stQuorum.total_stake ∧
    (stQuorum.has_majority_vote { validators := [1] } = true ↔
      3 * sum_stakes stQuorum.stake [1] ≥ 2 * stQuorum.total_stake) :=
  ⟨by decide, has_majority_vote_exact_ratio stQuorum { validators := [1] } (by decide)⟩

/-- C9 (confirmed): every validator entry present after `add_stake` either
was already in the validator set or carries an empty `net_addr`: the
appended entry hard-codes `String::new()` (the net address supplied in
`JoinParams` is never recorded — the in-repo `State::add_stake` does not
even receive it). -/
theorem add_stake_empty_net_addr (st : State) (receiver addr : Address) (amount : Int)
    (v : Validator) (hv : v ∈ (st.add_stake receiver addr amount).validator_set) :
    v ∈ st.validator_set ∨ v.net_addr = "" := by
  unfold State.add_stake at hv
  dsimp only at hv
  split at hv
  · rw [List.mem_append] at hv
    rcases hv with h | h
    · exact Or.inl h
    · right
      simp only [List.mem_singleton] at h
      rw [h]
  · exact Or.inl hv

/-- Witness for `add_stake_empty_net_addr` on the concrete `stDup` state. -/
theorem add_stake_empty_net_addr_witness :
    ({ subnet := SubnetID.new [0] 1, addr := 7, net_addr := "" } : Validator) ∈
        (stDup.add_stake 1 7 5).validator_set ∧
    (({ subnet := SubnetID.new [0] 1, addr := 7, net_addr := "" } : Validator) ∈
        stDup.validator_set ∨
      ({ subnet := SubnetID.new [0] 1, addr := 7, net_addr := "" } : Validator).net_addr = "") :=
  ⟨by decide, add_stake_empty_net_addr stDup 1 7 5 _ (by decide)⟩

/-- Termination bound for the `prev_checkpoint_cid` loop: with a positive
`check_period`, fuel exceeding `(e + 1).toNat` suffices for the loop to
return, and the returned CID is either the default CID or the CID of a
checkpoint committed at some epoch at most the starting epoch. -/
theorem prevCheckpointLoop_total (cps : Int → Option Checkpoint) (period : Int)
    (hp : 0 < period) :
    ∀ (n : Nat) (e : Int), (e + 1).toNat < n →
      ∃ r, prevCheckpointLoop cps period n e = some r ∧
        (r = Cid.default ∨
          ∃ e2 ch, e2 ≤ e ∧ get_checkpoint cps e2 = some ch ∧ r = ch.cid) := by
  intro n
  induction n with
  | zero => intro e he; omega
  | succ m ih =>
    intro e he
    unfold prevCheckpointLoop
    by_cases h0 : 0 ≤ e
    · rw [if_pos h0]
      cases hc : get_checkpoint cps e with
      | some ch =>
        exact ⟨ch.cid, rfl, Or.inr ⟨e, ch, le_refl e, hc, rfl⟩⟩
      | none =>
        have hlt : (e - period + 1).toNat < m := by omega
        obtain ⟨r, hr, hshape⟩ := ih (e - period) hlt
        refine ⟨r, hr, ?_⟩
        rcases hshape with h | ⟨e2, ch, he2, hch, hcid⟩
        · exact Or.inl h
        · exact Or.inr ⟨e2, ch, by omega, hch, hcid⟩
    · rw [if_neg h0]
      exact ⟨Cid.default, rfl, Or.inl rfl⟩

/-- C10 (confirmed): `State::new` clamps `check_period` up to
`DEFAULT_CHECKPOINT_PERIOD`, hence every constructed state has a strictly
positive period; and for every state with a positive `check_period`, the
`prev_checkpoint_cid` loop terminates on every input epoch (some finite
fuel makes the faithful fuel-indexed loop return), yielding either the CID
of a committed checkpoint of some strictly earlier epoch or the default
(empty) CID. -/
theorem prev_checkpoint_cid_terminates (params : ConstructParams) (is_test : Bool)
    (st : State) (h : 0 < st.check_period) (epoch : Int) :
    0 < (State.new params is_test).check_period ∧
    ∃ fuel r,
      prevCheckpointLoop st.checkpoints st.check_period fuel (epoch - st.check_period) = some r ∧
      (r = Cid.default ∨
        ∃ e2 ch, e2 < epoch ∧ get_checkpoint st.checkpoints e2 = some ch ∧ r = ch.cid) := by
  constructor
  · unfold State.new
    dsimp only
    split
    · unfold DEFAULT_CHECKPOINT_PERIOD
      omega
    · unfold DEFAULT_CHECKPOINT_PERIOD at *
      omega
  · obtain ⟨r, hr, hshape⟩ :=
      prevCheckpointLoop_total st.checkpoints st.check_period h
        ((epoch - st.check_period + 1).toNat + 1) (epoch - st.check_period) (by omega)
    refine ⟨(epoch - st.check_period + 1).toNat + 1, r, hr, ?_⟩
    rcases hshape with hd | ⟨e2, ch, he2, hch, hcid⟩
    · exact Or.inl hd
    · exact Or.inr ⟨e2, ch, by omega, hch, hcid⟩

/-- Witness for `prev_checkpoint_cid_terminates` on the concrete base state
(period 10, no stored checkpoints) at epoch 10. -/
theorem prev_checkpoint_cid_terminates_witness :
    0 < baseState.check_period ∧
    (0 < (State.new paramsW false).check_period ∧
      ∃ fuel r,
        prevCheckpointLoop baseState.checkpoints baseState.check_period fuel
            (10 - baseState.check_period) = some r ∧
        (r = Cid.default ∨
          ∃ e2 ch, e2 < 10 ∧ get_checkpoint baseState.checkpoints e2 = some ch ∧ r = ch.cid)) :=
  ⟨by decide, prev_checkpoint_cid_terminates paramsW false baseState (by decide) 10⟩

/-- C7 counterexample: in testing mode (`stTestActive.testing = true`) the
signature check is skipped: the environment `envSkip` rejects every
signature (in particular the submitted one, under the resolved testing
key), yet `verify_checkpoint` succeeds — contradicting the claim that
success requires the signature to verify. -/
theorem verify_checkpoint_testing_skips_signature :
    (stTestActive.verify_checkpoint envSkip chTen).2 = Except.ok () ∧
    envSkip.verifySig chTen.signature TESTING_ID chTen.cid = false := by
  refine ⟨by decide, rfl⟩

/-- C7 (amended): when the testing flag is unset, `verify_checkpoint`
leaves the state unchanged (also on failure: no partial mutation), and it
succeeds only if all of: the status is Active; no checkpoint is stored for
the epoch; the epoch is a multiple of `check_period`; the source equals
`SubnetID(parent_id, self_address)`; `prev_check` equals
`prev_checkpoint_cid` at the epoch; the caller resolves to a public key
under which the signature over the checkpoint CID verifies; and the caller
is in the validator set. (In testing mode the source skips the signature
check, see the counterexample.) -/
theorem verify_checkpoint_necessary_conditions (st : State) (env : Env) (ch : Checkpoint)
    (ht : st.testing = false) :
    (st.verify_checkpoint env ch).1 = st ∧
    ((st.verify_checkpoint env ch).2 = Except.ok () →
      st.status = Status.Active ∧
      get_checkpoint st.checkpoints ch.epoch = none ∧
      ch.epoch % st.check_period = 0 ∧
      ch.source = SubnetID.new st.parent_id env.receiver ∧
      ch.prev_check = st.prev_checkpoint_cid ch.epoch ∧
      (∃ id pk, env.resolveAddr env.caller = some id ∧
        env.deserializeAddr (env.sendReturn id PUBKEY_ADDRESS_METHOD [] 0) = some pk ∧
        env.verifySig ch.signature pk ch.cid = true) ∧
      st.validator_set.any (fun x => x.addr = env.caller) = true) := by
  have hresolve : st.resolve_secp_bls env env.caller =
      (st,
        match env.resolveAddr env.caller with
        | none => Except.error VerifyError.resolveFailed
        | some id =>
          match env.deserializeAddr (env.sendReturn id PUBKEY_ADDRESS_METHOD [] 0) with
          | some pk => Except.ok pk
          | none => Except.error VerifyError.badAddressResponse) := by
    cases hra : env.resolveAddr env.caller with
    | none =>
      unfold State.resolve_secp_bls
      rw [hra]
    | some id =>
      unfold State.resolve_secp_bls State.sendMsg
      rw [hra]
      try dsimp only
      rw [if_pos ht]
      try dsimp only
      rw [ht]
      try dsimp only
      cases hda : env.deserializeAddr (env.sendReturn id PUBKEY_ADDRESS_METHOD [] 0) <;>
        simp [hda]
  constructor
  · unfold State.verify_checkpoint
    dsimp only
    rw [hresolve]
    repeat' first
      | rfl
      | split
  · intro hok
    unfold State.verify_checkpoint at hok
    dsimp only at hok
    rw [hresolve] at hok
    by_cases h1 : st.status ≠ Status.Active
    · rw [if_pos h1] at hok
      exact Except.noConfusion hok
    rw [if_neg h1] at hok
    push_neg at h1
    cases hc : get_checkpoint st.checkpoints ch.epoch with
    | some c =>
      simp only [hc] at hok
      exact Except.noConfusion hok
    | none =>
      simp only [hc] at hok
      by_cases h2 : ch.epoch % st.check_period ≠ 0
      · rw [if_pos h2] at hok
        exact Except.noConfusion hok
      rw [if_neg h2] at hok
      push_neg at h2
      by_cases h3 : ch.source ≠ SubnetID.new st.parent_id env.receiver
      · rw [if_pos h3] at hok
        exact Except.noConfusion hok
      rw [if_neg h3] at hok
      push_neg at h3
      by_cases h4 : st.prev_checkpoint_cid ch.epoch ≠ ch.prev_check
      · rw [if_pos h4] at hok
        exact Except.noConfusion hok
      rw [if_neg h4] at hok
      push_neg at h4
      cases hra : env.resolveAddr env.caller with
      | none =>
        simp only [hra] at hok
        exact Except.noConfusion hok
      | some id =>
        simp only [hra] at hok
        cases hda : env.deserializeAddr (env.sendReturn id PUBKEY_ADDRESS_METHOD [] 0) with
        | none =>
          simp only [hda] at hok
          exact Except.noConfusion hok
        | some pk =>
          simp only [hda] at hok
          by_cases hsig : env.verifySig ch.signature pk ch.cid = false
          · rw [if_pos ⟨ht, hsig⟩] at hok
            exact Except.noConfusion hok
          rw [if_neg (fun hcon => hsig hcon.2)] at hok
          by_cases hval : (st.validator_set.any (fun x => x.addr = env.caller)) = false
          · rw [if_pos hval] at hok
            exact Except.noConfusion hok
          rw [if_neg hval] at hok
          have hsig2 : env.verifySig ch.signature pk ch.cid = true := by
            revert hsig
            cases env.verifySig ch.signature pk ch.cid <;> simp
          have hval2 : st.validator_set.any (fun x => x.addr = env.caller) = true := by
            revert hval
            cases st.validator_set.any (fun x => x.addr = env.caller) <;> simp
          exact ⟨h1, rfl, h2, h3, h4.symm, ⟨id, pk, rfl, hda, hsig2⟩, hval2⟩

/-- Witness for `verify_checkpoint_necessary_conditions`: a successful
non-testing verification on the concrete Active state. -/
theorem verify_checkpoint_necessary_conditions_witness :
    stActive.testing = false ∧
    (stActive.verify_checkpoint envOk chTen).2 = Except.ok () ∧
    (stActive.status = Status.Active ∧
      get_checkpoint stActive.checkpoints chTen.epoch = none ∧
      chTen.epoch % stActive.check_period = 0 ∧
      chTen.source = SubnetID.new stActive.parent_id envOk.receiver ∧
      chTen.prev_check = stActive.prev_checkpoint_cid chTen.epoch ∧
      (∃ id pk, envOk.resolveAddr envOk.caller = some id ∧
        envOk.deserializeAddr (envOk.sendReturn id PUBKEY_ADDRESS_METHOD [] 0) = some pk ∧
        envOk.verifySig chTen.signature pk chTen.cid = true) ∧
      stActive.validator_set.any (fun x => x.addr = envOk.caller) = true) :=
  ⟨rfl, by decide,
    (verify_checkpoint_necessary_conditions stActive envOk chTen rfl).2 (by decide)⟩
